import Mathlib

/-!
Shallow embedding of `src/roboptim-core-ipopt-plugin.cc` from
roboptim-core-plugin-ipopt: the adapter between a roboptim `Problem`
and the Ipopt TNLP callback protocol, together with the outcome
translation tables.  Numbers are modelled by `ℚ`; flat engine buffers by
`Nat → ℚ`; roboptim vectors by `List ℚ`.  Line numbers refer to
`src/roboptim-core-ipopt-plugin.cc`.
-/

namespace RoboptimIpopt

/-- A roboptim twice-derivable function as the adapter uses it (spec §6):
only output component 0 of the evaluation is consulted, the gradient and
hessian oracles are queried for output index 0, and `isLinear` records
whether the object's declared C++ type is `LinearFunction`. -/
structure Func where
  eval : List ℚ → ℚ
  grad : List ℚ → Nat → ℚ
  hess : List ℚ → Nat → Nat → ℚ
  isLinear : Bool

instance : Inhabited Func :=
  ⟨⟨fun _ => 0, fun _ _ => 0, fun _ _ _ => 0, false⟩⟩

/-- The problem description the solver holds a reference to (spec §3):
objective, ordered constraints, variable and constraint bounds, scaling
vectors, optional starting point. -/
structure Problem where
  n : Nat
  function : Func
  constraints : List Func
  argBounds : List (ℚ × ℚ)
  bounds : List (ℚ × ℚ)
  argScales : List ℚ
  scales : List ℚ
  startingPoint : Option (List ℚ)

/-- roboptim's result vocabulary (spec §3): `Result` (success),
`ResultWithWarnings`, `SolverError`.  The first two carry the primal
point `x`, the multiplier vector `lambda` and the objective value. -/
inductive ResultT where
  | result : List ℚ → List ℚ → ℚ → ResultT
  | resultWithWarnings : List ℚ → List ℚ → ℚ → List String → ResultT
  | solverError : String → ResultT
deriving DecidableEq

/-- Modelled from the spec: the Array/Container Bridge's
flat-buffer-to-container copy (`array_to_vector`, declared in
roboptim/core/util.hh, which is not part of this repository's src/).
Spec §4.1: it "copies n scalars preserving index order", where the count
is the pre-sized destination container's length (the flat source buffer
carries no length); "callers must pre-size correctly". -/
def array_to_vector (dstSize : Nat) (src : Nat → ℚ) : List ℚ :=
  (List.range dstSize).map src

/-- Ipopt's index style tag. -/
inductive IndexStyle where
  | C_STYLE
  | FORTRAN_STYLE
deriving DecidableEq

/-- Output record of `MyTNLP::get_nlp_info`. -/
structure NlpInfo where
  n : Nat
  m : Nat
  nnz_jac_g : Nat
  nnz_h_lag : Nat
  index_style : IndexStyle

/-- `MyTNLP::get_nlp_info` (lines 63-74): `n` from the objective,
`m` the number of constraints, `nnz_jac_g = n * m` and
`nnz_h_lag = n * n` (dense, per the FIXME comments), C-style indexing. -/
def get_nlp_info (p : Problem) : NlpInfo :=
  ⟨p.n, p.constraints.length, p.n * p.constraints.length, p.n * p.n,
   IndexStyle.C_STYLE⟩

/-- Ipopt's linearity tag. -/
inductive LinearityType where
  | LINEAR
  | NON_LINEAR
deriving DecidableEq

/-- The `cfsqp_tag (const LinearFunction& f)` overload (lines 42-45). -/
def cfsqp_tag_linearFunction (_f : Func) : LinearityType :=
  LinearityType.LINEAR

/-- The `cfsqp_tag (const Function& f)` overload (lines 49-52). -/
def cfsqp_tag_function (_f : Func) : LinearityType :=
  LinearityType.NON_LINEAR

/-- The `cfsqp_tag` call as resolved at its two call sites (lines 120 and
130).  C++ overload resolution is by static type: both arguments are
statically `TwiceDerivableFunction` references (the same references
receive `.hessian` calls at lines 280-281 and 287, a member `Function`
does not have), which convert to `const Function&` but not to
`const LinearFunction&`, so the `const Function&` overload is selected
whatever the dynamic kind of the object. -/
def cfsqp_tag (f : Func) : LinearityType :=
  cfsqp_tag_function f

/-- `MyTNLP::get_variables_linearity` (lines 113-122): every variable is
tagged with `cfsqp_tag` applied to the objective. -/
def get_variables_linearity (p : Problem) : List LinearityType :=
  (List.range p.n).map (fun _ => cfsqp_tag p.function)

/-- `MyTNLP::get_function_linearity` (lines 124-132): constraint `i` is
tagged with `cfsqp_tag` applied to constraint `i`. -/
def get_function_linearity (p : Problem) : List LinearityType :=
  p.constraints.map (fun c => cfsqp_tag c)

/-- Modelled from the spec (§4.2 `describeLinearity`): "a
variable/constraint is tagged Linear iff its associated function's
static/declared kind is linear; everything else is Non-linear."  Kept
separate from `cfsqp_tag` so the two can be compared. -/
def specLinearityTag (f : Func) : LinearityType :=
  if f.isLinear then LinearityType.LINEAR else LinearityType.NON_LINEAR

/-- Output record of `MyTNLP::get_starting_point`: the buffers it wrote
(`none` when left untouched), the value stored into `solver_.result_`
(`none` when not written), and the boolean return. -/
structure StartReply where
  x : Option (List ℚ)
  z_L : Option (List ℚ)
  z_U : Option (List ℚ)
  recorded : Option ResultT
  ret : Bool

/-- `MyTNLP::get_starting_point` (lines 134-168).  `none` models the
`assert (init_lambda == false)` at line 145 firing.  If `init_z`, both
bound-multiplier buffers are filled with `1.`.  If the problem has no
starting point and `init_x` holds, a `SolverError` is stored and `false`
returned; with no starting point and `init_x` false it returns `true`;
otherwise the starting point is copied into `x`. -/
def get_starting_point (p : Problem) (init_x init_z init_lambda : Bool) :
    Option StartReply :=
  if init_lambda then none
  else
    let z_L := if init_z then some (List.replicate p.n 1) else none
    let z_U := if init_z then some (List.replicate p.n 1) else none
    match p.startingPoint with
    | none =>
        if init_x then
          some ⟨none, z_L, z_U,
                some (ResultT.solverError "Ipopt method needs a starting point."),
                false⟩
        else
          some ⟨none, z_L, z_U, none, true⟩
    | some x0 => some ⟨some x0, z_L, z_U, none, true⟩

/-- `MyTNLP::eval_f` (lines 184-194): output component 0 of the
objective at `x`, paired with the boolean return value. -/
def eval_f (p : Problem) (x : List ℚ) : ℚ × Bool :=
  (p.function.eval x, true)

/-- `MyTNLP::eval_grad_f` (lines 196-209): the objective's gradient for
output 0, written component by component, with the boolean return. -/
def eval_grad_f (p : Problem) (x : List ℚ) : List ℚ × Bool :=
  ((List.range p.n).map (fun j => p.function.grad x j), true)

/-- `MyTNLP::eval_g` (lines 211-231): `g_[i] = (**it)(x_)[0]` over the
constraints in declared order, with the boolean return. -/
def eval_g (p : Problem) (x : List ℚ) : List ℚ × Bool :=
  (p.constraints.map (fun c => c.eval x), true)

/-- Modelled from the spec: `jacobian_from_gradients` (declared in
roboptim/core/util.hh, outside this repository's src/) fills row `i` of
the `m × n` Jacobian with constraint `i`'s gradient at `x` — spec §4.3:
"computed by evaluating each constraint's gradient at `x` and writing
its `n` components into row `i`". -/
def jacobian_from_gradients (p : Problem) (x : List ℚ) : Nat → Nat → ℚ :=
  fun i j => (p.constraints.getD i default).grad x j

/-- Structure phase of `MyTNLP::eval_jac_g` (lines 242-252): the dense
index pairs `(i, j)` for `i < m`, `j < n`, row-major. -/
def eval_jac_g_structure (m n : Nat) : List (Nat × Nat) :=
  (List.range m).flatMap (fun i => (List.range n).map (fun j => (i, j)))

/-- Value phase of `MyTNLP::eval_jac_g` (lines 253-266):
`values[idx++] = jac (i, j)` over the same double loop. -/
def eval_jac_g_values (p : Problem) (x : List ℚ) : List ℚ :=
  (List.range p.constraints.length).flatMap
    (fun i => (List.range p.n).map (fun j => jacobian_from_gradients p x i j))

/-- Output record of `MyTNLP::eval_jac_g`: the index buffers or the
value buffer (whichever phase ran), and the boolean return. -/
structure JacReply where
  pattern : Option (List (Nat × Nat))
  vals : Option (List ℚ)
  ret : Bool

/-- `MyTNLP::eval_jac_g` (lines 233-269): dispatches on whether the
engine passed a `values` buffer (the `if (!values)` test). -/
def eval_jac_g (p : Problem) (x : List ℚ) (wantValues : Bool) : JacReply :=
  if wantValues then ⟨none, some (eval_jac_g_values p x), true⟩
  else ⟨some (eval_jac_g_structure p.constraints.length p.n), none, true⟩

/-- Dense matrices, indexed by `Nat` pairs. -/
abbrev Mat := Nat → Nat → ℚ

/-- Matrix addition, entrywise (`h += ...`). -/
def matAdd (a b : Mat) : Mat := fun i j => a i j + b i j

/-- Scalar-matrix product, entrywise (`obj_factor * fct_h`). -/
def matSmul (c : ℚ) (a : Mat) : Mat := fun i j => c * a i j

/-- The `h += lambda[i++] * (*it)->hessian (x, 0)` loop of
`MyTNLP::compute_hessian` (lines 284-287): left-to-right over the
constraints with a running index. -/
def compute_hessian_loop (x : List ℚ) (lambda : Nat → ℚ) :
    List Func → Nat → Mat → Mat
  | [], _, h => h
  | c :: cs, i, h =>
      compute_hessian_loop x lambda cs (i + 1)
        (matAdd h (matSmul (lambda i) (c.hess x)))

/-- `MyTNLP::compute_hessian` (lines 272-288): `h = obj_factor * fct_h`
with `fct_h` the objective's hessian at `x`, then the constraint loop. -/
def compute_hessian (p : Problem) (x : List ℚ) (obj_factor : ℚ)
    (lambda : Nat → ℚ) : Mat :=
  compute_hessian_loop x lambda p.constraints 0
    (matSmul obj_factor (p.function.hess x))

/-- Structure phase of `MyTNLP::eval_h` (lines 302-313): dense `(i, j)`
for `i, j < n`, row-major. -/
def eval_h_structure (n : Nat) : List (Nat × Nat) :=
  (List.range n).flatMap (fun i => (List.range n).map (fun j => (i, j)))

/-- Value phase of `MyTNLP::eval_h` (lines 314-330): assemble the
Lagrangian Hessian via `compute_hessian`, then write it row-major. -/
def eval_h_values (p : Problem) (x : List ℚ) (obj_factor : ℚ)
    (lambda : Nat → ℚ) : List ℚ :=
  (List.range p.n).flatMap
    (fun i => (List.range p.n).map
      (fun j => compute_hessian p x obj_factor lambda i j))

/-- Output record of `MyTNLP::eval_h`. -/
structure HessReply where
  pattern : Option (List (Nat × Nat))
  vals : Option (List ℚ)
  ret : Bool

/-- `MyTNLP::eval_h` (lines 290-333). -/
def eval_h (p : Problem) (x : List ℚ) (obj_factor : ℚ) (lambda : Nat → ℚ)
    (wantValues : Bool) : HessReply :=
  if wantValues then ⟨none, some (eval_h_values p x obj_factor lambda), true⟩
  else ⟨some (eval_h_structure p.n), none, true⟩

/-- Ipopt's `SolverReturn` enumeration, exactly the codes the `switch`
of `MyTNLP::finalize_solution` (lines 347-425) handles. -/
inductive SolverReturn where
  | SUCCESS
  | MAXITER_EXCEEDED
  | STOP_AT_TINY_STEP
  | STOP_AT_ACCEPTABLE_POINT
  | LOCAL_INFEASIBILITY
  | USER_REQUESTED_STOP
  | FEASIBLE_POINT_FOUND
  | DIVERGING_ITERATES
  | RESTORATION_FAILURE
  | ERROR_IN_STEP_COMPUTATION
  | INVALID_NUMBER_DETECTED
  | TOO_FEW_DEGREES_OF_FREEDOM
  | INVALID_OPTION
  | OUT_OF_MEMORY
  | INTERNAL_ERROR
deriving DecidableEq

/-- `MyTNLP::finalize_solution` (lines 335-426), as the value stored
into `solver_.result_`; `none` models the `USER_REQUESTED_STOP` branch,
which stores nothing and hits `assert (0)`.

In the `SUCCESS`/`FEASIBLE_POINT_FOUND` branch `res.lambda` is resized
to `m` (line 354) before `array_to_vector` fills it, so the multiplier
payload has length `m`.  In the `STOP_AT_ACCEPTABLE_POINT` branch there
is no resize: `ResultWithWarnings res (n, 1)` sizes `res.x` to `n` and
`res.value` to `1` only (the constructor is never told `m`; the explicit
resize in the `SUCCESS` branch is what sets `lambda`'s size there), so
`array_to_vector (res.lambda, lambda)` copies `res.lambda.size () = 0`
scalars (§4.1: the destination's length is the count) and the stored
multiplier payload is empty. -/
def finalize_solution (p : Problem) (status : SolverReturn)
    (x lambda : Nat → ℚ) (obj_value : ℚ) : Option ResultT :=
  match status with
  | SolverReturn.FEASIBLE_POINT_FOUND =>
      some (ResultT.result (array_to_vector p.n x)
        (array_to_vector p.constraints.length lambda) obj_value)
  | SolverReturn.SUCCESS =>
      some (ResultT.result (array_to_vector p.n x)
        (array_to_vector p.constraints.length lambda) obj_value)
  | SolverReturn.MAXITER_EXCEEDED =>
      some (ResultT.solverError "Max iteration exceeded.")
  | SolverReturn.STOP_AT_TINY_STEP =>
      some (ResultT.solverError
        "Algorithm proceeds with very little progress.")
  | SolverReturn.STOP_AT_ACCEPTABLE_POINT =>
      some (ResultT.resultWithWarnings (array_to_vector p.n x)
        (array_to_vector 0 lambda) obj_value ["Acceptable point."])
  | SolverReturn.LOCAL_INFEASIBILITY =>
      some (ResultT.solverError
        "Algorithm converged to a point of local infeasibility.")
  | SolverReturn.USER_REQUESTED_STOP => none
  | SolverReturn.DIVERGING_ITERATES =>
      some (ResultT.solverError "Iterate diverges.")
  | SolverReturn.RESTORATION_FAILURE =>
      some (ResultT.solverError "Restoration phase failed.")
  | SolverReturn.ERROR_IN_STEP_COMPUTATION =>
      some (ResultT.solverError
        "Unrecoverable error while IPOPT tried to compute the search direction.")
  | SolverReturn.INVALID_NUMBER_DETECTED =>
      some (ResultT.solverError "IPOPT received an invalid number.")
  | SolverReturn.INTERNAL_ERROR =>
      some (ResultT.solverError "Unknown internal error.")
  | SolverReturn.TOO_FEW_DEGREES_OF_FREEDOM =>
      some (ResultT.solverError "Two few degrees of freedom.")
  | SolverReturn.INVALID_OPTION =>
      some (ResultT.solverError "Invalid option.")
  | SolverReturn.OUT_OF_MEMORY =>
      some (ResultT.solverError "Out of memory.")

/-- The primal point a stored result publishes, if any. -/
def primalPoint : Option ResultT → Option (List ℚ)
  | some (ResultT.result x _ _) => some x
  | some (ResultT.resultWithWarnings x _ _ _) => some x
  | some (ResultT.solverError _) => none
  | none => none

/-- The four outcome families of the spec's §4.5 table: success,
success-with-warnings, error, and the unreachable-defect row. -/
inductive OutcomeFamily where
  | success
  | successWithWarnings
  | error
  | defect
deriving DecidableEq

/-- Classify what `finalize_solution` stored. -/
def outcomeFamily : Option ResultT → OutcomeFamily
  | some (ResultT.result _ _ _) => OutcomeFamily.success
  | some (ResultT.resultWithWarnings _ _ _ _) => OutcomeFamily.successWithWarnings
  | some (ResultT.solverError _) => OutcomeFamily.error
  | none => OutcomeFamily.defect

/-- Modelled from the spec: the fixed §4.5 table, per termination code.
Success / feasible point found map to Success; acceptable point to
SuccessWithWarnings; user-requested stop is "treated as unreachable
... reaching it is a defect"; every other code maps to Error. -/
def specOutcomeTable : SolverReturn → OutcomeFamily
  | SolverReturn.SUCCESS => OutcomeFamily.success
  | SolverReturn.FEASIBLE_POINT_FOUND => OutcomeFamily.success
  | SolverReturn.STOP_AT_ACCEPTABLE_POINT => OutcomeFamily.successWithWarnings
  | SolverReturn.USER_REQUESTED_STOP => OutcomeFamily.defect
  | _ => OutcomeFamily.error

/-- Ipopt's algorithm-mode tag for the intermediate callback. -/
inductive AlgorithmMode where
  | RegularMode
  | RestorationPhaseMode

/-- `MyTNLP::intermediate_callback` (lines 428-441): ignores every
argument and returns `true`. -/
def intermediate_callback (_mode : AlgorithmMode) (_iter : Nat)
    (_obj_value _inf_pr _inf_du _mu _d_norm _regularization_size
     _alpha_du _alpha_pr : ℚ) (_ls_trials : Nat) : Bool :=
  true

/-- Ipopt's `ApplicationReturnStatus` codes, exactly those the `switch`
of `IpoptSolver::solve` (lines 487-551) handles. -/
inductive ApplicationReturnStatus where
  | Solve_Succeeded
  | Solved_To_Acceptable_Level
  | Infeasible_Problem_Detected
  | Search_Direction_Becomes_Too_Small
  | Diverging_Iterates
  | User_Requested_Stop
  | Feasible_Point_Found
  | Maximum_Iterations_Exceeded
  | Restoration_Failed
  | Error_In_Step_Computation
  | Not_Enough_Degrees_Of_Freedom
  | Invalid_Problem_Definition
  | Invalid_Option
  | Invalid_Number_Detected
  | Unrecoverable_Exception
  | NonIpopt_Exception_Thrown
  | Insufficient_Memory
  | Internal_Error
deriving DecidableEq

/-- What `IpoptSolver::solve` did with a given `Initialize` status:
whether `OptimizeTNLP` was invoked, what (if anything) was stored into
`result_` by the switch itself, and whether an `assert (0)` branch was
reached. -/
structure SolveOutcome where
  optimizeInvoked : Bool
  recorded : Option ResultT
  assertFailed : Bool
deriving DecidableEq

/-- `IpoptSolver::solve` (lines 482-552) as a function of the status
returned by `app_->Initialize ("")`. -/
def IpoptSolver_solve : ApplicationReturnStatus → SolveOutcome
  | ApplicationReturnStatus.Solve_Succeeded => ⟨true, none, false⟩
  | ApplicationReturnStatus.Solved_To_Acceptable_Level => ⟨true, none, false⟩
  | ApplicationReturnStatus.Infeasible_Problem_Detected =>
      ⟨false, some (ResultT.solverError "Ipopt: infeasible problem detected."), false⟩
  | ApplicationReturnStatus.Search_Direction_Becomes_Too_Small =>
      ⟨false, some (ResultT.solverError "Ipopt: search direction too small."), false⟩
  | ApplicationReturnStatus.Diverging_Iterates =>
      ⟨false, some (ResultT.solverError "Ipopt: diverging iterates."), false⟩
  | ApplicationReturnStatus.User_Requested_Stop => ⟨false, none, true⟩
  | ApplicationReturnStatus.Feasible_Point_Found => ⟨true, none, false⟩
  | ApplicationReturnStatus.Maximum_Iterations_Exceeded =>
      ⟨false, some (ResultT.solverError "Ipopt: maximum iterations exceeded."), false⟩
  | ApplicationReturnStatus.Restoration_Failed =>
      ⟨false, some (ResultT.solverError "Ipopt: restoration failed."), false⟩
  | ApplicationReturnStatus.Error_In_Step_Computation =>
      ⟨false, some (ResultT.solverError "Ipopt: error in step computation."), false⟩
  | ApplicationReturnStatus.Not_Enough_Degrees_Of_Freedom =>
      ⟨false, some (ResultT.solverError "Ipopt: not enough degrees of freedom."), false⟩
  | ApplicationReturnStatus.Invalid_Problem_Definition =>
      ⟨false, some (ResultT.solverError "Ipopt: invalid problem definition."), false⟩
  | ApplicationReturnStatus.Invalid_Option =>
      ⟨false, some (ResultT.solverError "Ipopt: invalid option."), false⟩
  | ApplicationReturnStatus.Invalid_Number_Detected =>
      ⟨false, some (ResultT.solverError "Ipopt: invalid number detected."), false⟩
  | ApplicationReturnStatus.Unrecoverable_Exception =>
      ⟨false, some (ResultT.solverError "Ipopt: unrecoverable exception."), false⟩
  | ApplicationReturnStatus.NonIpopt_Exception_Thrown => ⟨false, none, true⟩
  | ApplicationReturnStatus.Insufficient_Memory =>
      ⟨false, some (ResultT.solverError "Ipopt: insufficient memory."), false⟩
  | ApplicationReturnStatus.Internal_Error =>
      ⟨false, some (ResultT.solverError "Ipopt: internal error."), false⟩

end RoboptimIpopt

namespace RoboptimIpopt

/-- A concrete objective for concrete instances: `f x = x0² + x1²`
(declared non-linear). -/
def demoObj : Func :=
  ⟨fun x => x.getD 0 0 * x.getD 0 0 + x.getD 1 0 * x.getD 1 0,
   fun x j => 2 * x.getD j 0,
   fun _ i j => if i = j ∧ i < 2 then 2 else 0,
   false⟩

/-- A concrete constraint whose declared C++ type is `LinearFunction`:
`g x = x0 + x1`. -/
def demoCon : Func :=
  ⟨fun x => x.getD 0 0 + x.getD 1 0, fun _ _ => 1, fun _ _ _ => 0, true⟩

/-- A concrete two-variable, one-constraint problem (spec §8 scenario). -/
def demoProblem : Problem :=
  ⟨2, demoObj, [demoCon], [(0, 2), (0, 2)], [(1, 10)], [1, 1], [1],
   some [1, 1]⟩

/-- `demoProblem` with its starting point removed. -/
def demoProblemNoStart : Problem :=
  ⟨2, demoObj, [demoCon], [(0, 2), (0, 2)], [(1, 10)], [1, 1], [1], none⟩

/-- A concrete primal buffer: `x = (1, 2, 2, ...)`. -/
def demoX : Nat → ℚ := fun i => if i = 0 then 1 else 2

/-- A concrete multiplier buffer: every entry `7`. -/
def demoLam : Nat → ℚ := fun _ => 7

/-- Unfolding of the constraint-accumulation loop of
`MyTNLP::compute_hessian`: starting the loop at counter `k` with
accumulator `h` adds `Σ_t lambda (k+t) · hess(g_t)` entrywise. -/
theorem compute_hessian_loop_spec (x : List ℚ) (lam : Nat → ℚ)
    (l : List Func) : ∀ (k : Nat) (h : Mat) (i j : Nat),
    compute_hessian_loop x lam l k h i j
      = h i j + ∑ t ∈ Finset.range l.length,
          lam (k + t) * (l.getD t default).hess x i j := by
  induction l with
  | nil => intro k h i j; simp [compute_hessian_loop]
  | cons c cs ih =>
      intro k h i j
      rw [compute_hessian_loop, ih (k + 1)]
      have hsum : ∑ t ∈ Finset.range cs.length,
            lam (k + (t + 1)) * ((c :: cs).getD (t + 1) default).hess x i j
          = ∑ t ∈ Finset.range cs.length,
            lam (k + 1 + t) * (cs.getD t default).hess x i j := by
        refine Finset.sum_congr rfl (fun t _ => ?_)
        rw [List.getD_cons_succ]
        have harg : k + (t + 1) = k + 1 + t := by omega
        rw [harg]
      rw [List.length_cons, Finset.sum_range_succ', hsum, List.getD_cons_zero]
      simp only [matAdd, matSmul, Nat.add_zero]
      ring

/-- Claim C1: for every point `x`, objective factor `a` and multiplier
vector `lam`, the assembled Lagrangian Hessian equals `a` times the
objective's Hessian at `x` plus the sum over `k < m` of `lam k` times
constraint `k`'s Hessian at `x` (the definition `compute_hessian`
accumulates the objective term first, then the constraints in declared
order). -/
theorem compute_hessian_assembles_weighted_sum (p : Problem) (x : List ℚ)
    (a : ℚ) (lam : Nat → ℚ) (i j : Nat) :
    compute_hessian p x a lam i j
      = a * p.function.hess x i j
        + ∑ k ∈ Finset.range p.constraints.length,
            lam k * (p.constraints.getD k default).hess x i j := by
  rw [compute_hessian, compute_hessian_loop_spec]
  simp [matSmul]

/-- Claim C2: every code of the terminal-notification enumeration is
translated to exactly one outcome family, matching the spec's fixed
table (user-requested stop being its unreachable-defect row, modelled as
no stored result); in particular `MAXITER_EXCEEDED` stores
`Error "Max iteration exceeded."` and publishes no primal point. -/
theorem finalize_solution_matches_outcome_table (p : Problem)
    (x lam : Nat → ℚ) (v : ℚ) :
    (∀ s, outcomeFamily (finalize_solution p s x lam v) = specOutcomeTable s)
    ∧ finalize_solution p SolverReturn.MAXITER_EXCEEDED x lam v
        = some (ResultT.solverError "Max iteration exceeded.")
    ∧ primalPoint (finalize_solution p SolverReturn.MAXITER_EXCEEDED x lam v)
        = none := by
  refine ⟨fun s => ?_, rfl, rfl⟩
  cases s <;> rfl

/-- Claim C3: the flat value list written by the value phase of the
Jacobian query is exactly the structure-phase index list mapped through
the Jacobian entries — position `k` of the values is the entry at the
(row, column) pair emitted at position `k` of the structure phase — and
likewise for the Hessian query. -/
theorem structure_value_phases_align (p : Problem) (x : List ℚ) (a : ℚ)
    (lam : Nat → ℚ) :
    eval_jac_g_values p x
        = (eval_jac_g_structure p.constraints.length p.n).map
            (fun ij => jacobian_from_gradients p x ij.1 ij.2)
    ∧ eval_h_values p x a lam
        = (eval_h_structure p.n).map
            (fun ij => compute_hessian p x a lam ij.1 ij.2) := by
  constructor <;>
    simp [eval_jac_g_values, eval_jac_g_structure, eval_h_values,
      eval_h_structure, List.map_flatMap, List.map_map, Function.comp_def]

/-- Claim C4: the structural problem-description query reports the
dense Jacobian nonzero count `n * m` and Hessian nonzero count
`n * n` exactly. -/
theorem get_nlp_info_dense_counts (p : Problem) :
    (get_nlp_info p).nnz_jac_g = p.n * p.constraints.length
    ∧ (get_nlp_info p).nnz_h_lag = p.n * p.n :=
  ⟨rfl, rfl⟩

/-- Claim C5: on a problem with no starting point, requesting `x` makes
the starting-point query store the missing-starting-point `SolverError`
and return the failure signal, while not requesting `x` makes it
succeed with nothing stored. -/
theorem get_starting_point_missing_start (p : Problem) (init_z : Bool)
    (hsp : p.startingPoint = none) :
    (get_starting_point p true init_z false).map StartReply.ret = some false
    ∧ (get_starting_point p true init_z false).map StartReply.recorded
        = some (some (ResultT.solverError "Ipopt method needs a starting point."))
    ∧ (get_starting_point p false init_z false).map StartReply.ret = some true
    ∧ (get_starting_point p false init_z false).map StartReply.recorded
        = some none := by
  simp [get_starting_point, hsp]

/-- `get_starting_point_missing_start` evaluated on a concrete problem
carrying no starting point. -/
theorem get_starting_point_missing_start_witness :
    demoProblemNoStart.startingPoint = none
    ∧ ((get_starting_point demoProblemNoStart true false false).map
          StartReply.ret = some false
      ∧ (get_starting_point demoProblemNoStart true false false).map
          StartReply.recorded
          = some (some (ResultT.solverError "Ipopt method needs a starting point."))
      ∧ (get_starting_point demoProblemNoStart false false false).map
          StartReply.ret = some true
      ∧ (get_starting_point demoProblemNoStart false false false).map
          StartReply.recorded = some none) :=
  ⟨rfl, get_starting_point_missing_start demoProblemNoStart false rfl⟩

/-- Claim C6, code evaluated at the failing input: terminating with
`STOP_AT_ACCEPTABLE_POINT` on a problem with `n = 2`, `m = 1` stores a
`ResultWithWarnings` with the full primal point and exactly one warning
"Acceptable point.", but with an empty multiplier payload (length 0, not
`m = 1`): unlike the `SUCCESS` branch, this branch never resizes the
result's lambda container before the bridge copy. -/
theorem finalize_acceptable_point_empty_multipliers :
    finalize_solution demoProblem SolverReturn.STOP_AT_ACCEPTABLE_POINT
        demoX demoLam 5
      = some (ResultT.resultWithWarnings [1, 2] [] 5 ["Acceptable point."]) := by
  decide

/-- Claim C7, code evaluated at the failing input: `demoProblem`'s only
constraint is declared linear (its spec tag is `LINEAR`), yet the
linearity query tags it `NON_LINEAR`; every variable is likewise tagged
`NON_LINEAR`. -/
theorem linearity_query_ignores_declared_kind :
    (demoProblem.constraints.getD 0 default).isLinear = true
    ∧ specLinearityTag (demoProblem.constraints.getD 0 default)
        = LinearityType.LINEAR
    ∧ get_function_linearity demoProblem = [LinearityType.NON_LINEAR]
    ∧ get_variables_linearity demoProblem
        = [LinearityType.NON_LINEAR, LinearityType.NON_LINEAR] :=
  ⟨rfl, rfl, rfl, rfl⟩

/-- Claim C8: position `i` of the constraint-vector value query is the
first output component of the `i`-th constraint evaluated at `x`, in
declared order. -/
theorem eval_g_preserves_declared_order (p : Problem) (x : List ℚ)
    (i : Nat) (hi : i < p.constraints.length) :
    ((eval_g p x).1).get ⟨i, by simpa [eval_g] using hi⟩
      = (p.constraints.get ⟨i, hi⟩).eval x := by
  simp [eval_g]

/-- `eval_g_preserves_declared_order` evaluated at `demoProblem`,
`x = [1, 2]`, `i = 0`. -/
theorem eval_g_preserves_declared_order_witness :
    0 < demoProblem.constraints.length
    ∧ ((eval_g demoProblem [1, 2]).1).get ⟨0, by decide⟩
        = (demoProblem.constraints.get ⟨0, by decide⟩).eval [1, 2] :=
  ⟨by decide,
   eval_g_preserves_declared_order demoProblem [1, 2] 0 (by decide)⟩

/-- Claim C9, counterexample: at initialize status `User_Requested_Stop`
the solve switch neither invokes the optimize step nor records an
`Error` outcome — it reaches `assert (0)` — so the claimed dichotomy
over every return status fails there. -/
theorem solve_user_requested_stop_neither_optimizes_nor_errors :
    ¬ ((IpoptSolver_solve
          ApplicationReturnStatus.User_Requested_Stop).optimizeInvoked = true
       ∨ ∃ msg,
           (IpoptSolver_solve
              ApplicationReturnStatus.User_Requested_Stop).recorded
             = some (ResultT.solverError msg)) := by
  rintro (h | ⟨msg, h⟩)
  · exact absurd h (by decide)
  · simp [IpoptSolver_solve] at h

/-- Claim C9 as amended: for every initialize status other than the two
unreachable-defect codes (`User_Requested_Stop`,
`NonIpopt_Exception_Thrown`, which trip an assertion), `solve` either
invokes the optimize step with nothing recorded (proceed and
proceed-with-caveat statuses) or records a `SolverError` without
invoking optimize (every failure status). -/
theorem solve_dispatches_on_initialize_status (s : ApplicationReturnStatus)
    (h1 : s ≠ ApplicationReturnStatus.User_Requested_Stop)
    (h2 : s ≠ ApplicationReturnStatus.NonIpopt_Exception_Thrown) :
    ((IpoptSolver_solve s).optimizeInvoked = true
      ∧ (IpoptSolver_solve s).recorded = none
      ∧ (IpoptSolver_solve s).assertFailed = false)
    ∨ ((IpoptSolver_solve s).optimizeInvoked = false
      ∧ (∃ msg, (IpoptSolver_solve s).recorded
            = some (ResultT.solverError msg))
      ∧ (IpoptSolver_solve s).assertFailed = false) := by
  cases s <;> first
    | exact absurd rfl h1
    | exact absurd rfl h2
    | exact Or.inl ⟨rfl, rfl, rfl⟩
    | exact Or.inr ⟨rfl, ⟨_, rfl⟩, rfl⟩

/-- `solve_dispatches_on_initialize_status` evaluated at the concrete
failure status `Infeasible_Problem_Detected`. -/
theorem solve_dispatches_on_initialize_status_witness :
    ((IpoptSolver_solve
        ApplicationReturnStatus.Infeasible_Problem_Detected).optimizeInvoked
          = true
      ∧ (IpoptSolver_solve
          ApplicationReturnStatus.Infeasible_Problem_Detected).recorded = none
      ∧ (IpoptSolver_solve
          ApplicationReturnStatus.Infeasible_Problem_Detected).assertFailed
          = false)
    ∨ ((IpoptSolver_solve
          ApplicationReturnStatus.Infeasible_Problem_Detected).optimizeInvoked
          = false
      ∧ (∃ msg, (IpoptSolver_solve
            ApplicationReturnStatus.Infeasible_Problem_Detected).recorded
            = some (ResultT.solverError msg))
      ∧ (IpoptSolver_solve
          ApplicationReturnStatus.Infeasible_Problem_Detected).assertFailed
          = false) :=
  solve_dispatches_on_initialize_status
    ApplicationReturnStatus.Infeasible_Problem_Detected
    (by decide) (by decide)

/-- Claim C10: every per-iteration value callback (objective, objective
gradient, constraint vector, Jacobian in either phase, Lagrangian
Hessian in either phase) and the intermediate iteration callback return
`true` unconditionally. -/
theorem callbacks_always_return_true (p : Problem) (x : List ℚ) (a : ℚ)
    (lam : Nat → ℚ) (w w' : Bool) (mode : AlgorithmMode) (iter ls : Nat)
    (q1 q2 q3 q4 q5 q6 q7 q8 : ℚ) :
    (eval_f p x).2 = true
    ∧ (eval_grad_f p x).2 = true
    ∧ (eval_g p x).2 = true
    ∧ (eval_jac_g p x w).ret = true
    ∧ (eval_h p x a lam w').ret = true
    ∧ intermediate_callback mode iter q1 q2 q3 q4 q5 q6 q7 q8 ls = true := by
  refine ⟨rfl, rfl, rfl, ?_, ?_, rfl⟩
  · cases w <;> rfl
  · cases w' <;> rfl

end RoboptimIpopt
